import Mathlib

/-!
Shallow embedding of the MovementAnalysis video-session pipeline from
head_movement_analysis.py.  Python floats are idealised as exact
rationals; Python round (nearest, ties to even) and int (truncation
toward zero) are modelled explicitly.  The external collaborators
(face tracker, the two gaze estimators, the hand detector) enter as
per-frame measurement data carried by a FrameData record, and the
persistence collaborator (Feedback upsert) is outside the value
returned by the entry point, so it does not appear in the embedding.
-/

namespace MovementAnalysis

/-- Python round() on a rational: nearest integer, ties to even. -/
def roundHalfEven (q : ℚ) : ℤ :=
  if q - ⌊q⌋ < 1/2 then ⌊q⌋
  else if 1/2 < q - ⌊q⌋ then ⌊q⌋ + 1
  else if ⌊q⌋ % 2 = 0 then ⌊q⌋ else ⌊q⌋ + 1

/-- Python round(x, 1): round to one decimal digit, ties to even. -/
def pyRound1 (x : ℚ) : ℚ := (roundHalfEven (x * 10) : ℚ) / 10

/-- Python int() applied to a float value: truncation toward zero. -/
def pyInt (x : ℚ) : ℤ := if x < 0 then -⌊-x⌋ else ⌊x⌋

/-- focal_length, inner helper of head_and_eyes_analysis. -/
def focal_length (measured_distance real_width width_in_rf_image : ℚ) : ℚ :=
  (width_in_rf_image * measured_distance) / real_width

/-- distance_finder, inner helper of head_and_eyes_analysis (its first
source argument is also called focal_length). -/
def distance_finder (focal_len real_face_width face_width_in_frame : ℚ) : ℚ :=
  (real_face_width * focal_len) / face_width_in_frame

/-- head_movements, inner helper of head_and_eyes_analysis: maps the
gaze ratios (source argument order: vertical then horizontal) to a
head-direction string, empty when undetermined. -/
def head_movements (vert horiz : ℚ) : String :=
  if 0.71 ≤ horiz ∧ horiz ≤ 1.45 then
    if 1.33 ≤ vert ∧ vert ≤ 2.10 then "Center"
    else if vert < 1.33 then "Upper"
    else if 2.10 < vert then "Down"
    else ""
  else if horiz < 0.71 then "Left"
  else if 1.45 < horiz then "Right"
  else ""

/-- gesture_score from MovementAnalysis: qualitative feedback statement
from a gesture count and the number of samples in the half-session. -/
def gesture_score (score n_samples : ℕ) : String :=
  let bars : ℕ × ℕ × ℕ × ℕ :=
    if n_samples < 750 then (0, 100, 200, 300)
    else if 750 ≤ n_samples ∧ n_samples ≤ 1250 then (0, 200, 400, 600)
    else (0, 400, 800, 1600)
  let bar2 := bars.2.1
  let bar3 := bars.2.2.1
  let bar4 := bars.2.2.2
  if score = 0 then
    "We didn’t see any gestures. Is this a missed opportunity? Consider using gestures to help you emphasize your key messages."
  else if 1 ≤ score ∧ score ≤ bar2 then
    "Good effort! You had some gestures, try using a few more."
  else if bar2 + 1 ≤ score ∧ score ≤ bar3 then
    "Awesome, that was magnificent! You are using your gestures to add interest."
  else if bar3 + 1 ≤ score ∧ score ≤ bar4 then
    "Phew! We can see you are using your hands. Maybe a little too much."
  else
    "Ouch! There were a lot of gestures."

/-- Python exceptions that the embedded code can raise. -/
inductive PyError where
  | indexError : PyError
  | unboundLocal : String → PyError
deriving DecidableEq

/-- Per-frame readings of the external collaborators on one decoded
frame: the hand detector, the face tracker (face_data) and the two
gaze estimators (selfie and full-body), plus the frame mean
brightness (frame_light, passed to get_eyes_data as valuePix). -/
structure FrameData where
  handPresent : Bool
  faceRaises : Bool
  faceWidth : ℚ
  faceValues : ℚ
  valuePix : ℚ
  selfieVert : ℚ
  selfieHoriz : ℚ
  fullVert : ℚ
  fullHoriz : ℚ
  selfieRight : Bool
  selfieLeft : Bool
  selfieCenter : Bool
  fullRight : Bool
  fullLeft : Bool
  fullCenter : Bool
deriving DecidableEq

/-- get_eyes_data, inner helper of head_and_eyes_analysis.  The local
variable distance is only assigned under face_width != 0, yet it is
read unconditionally by the final too-far test, so the embedding keeps
it as an Option and raises unboundLocal when it is read unassigned.
A face/gaze lookup failure inside the tracker surfaces as indexError.
Defaults from the source: known_distance = 43, known_width = 12.3,
mindistance_selfie = 20, mindistance_fullbody = 69,
maxdistance_fullbody = 140. -/
def get_eyes_data (fd : FrameData) (valuePix : ℚ) (faceWidthImg : ℚ) :
    Except PyError (String × String × String × String) :=
  if fd.faceRaises then Except.error PyError.indexError else
  let face_width := fd.faceWidth
  let low_light_text := if fd.faceValues ≤ 65 then "Low Light Found" else ""
  let focal_length_found := focal_length 43 (123/10) faceWidthImg
  let state : Option ℚ × String × String :=
    if face_width ≠ 0 then
      let distance := distance_finder focal_length_found (123/10) face_width
      let selfiePart : String × String :=
        if 20 < distance ∧ distance < 69 then
          let th := head_movements fd.selfieVert fd.selfieHoriz
          let te :=
            if valuePix > 97 then
              if fd.selfieRight then "Right"
              else if fd.selfieLeft then "Left"
              else if fd.selfieCenter then "Center"
              else ""
            else ""
          (te, th)
        else ("", "")
      let fullPart : String × String :=
        if 69 ≤ distance ∧ distance ≤ 140 then
          let th := head_movements fd.fullVert fd.fullHoriz
          let te :=
            if valuePix > 97 then
              if fd.fullRight then "Right"
              else if fd.fullLeft then "Left"
              else if fd.fullCenter then "Center"
              else ""
            else ""
          (te, th)
        else selfiePart
      (some distance, fullPart)
    else (none, "", "")
  match state with
  | (none, _, _) => Except.error (PyError.unboundLocal "distance")
  | (some distance, text_eyes_movements, text_head_analysis) =>
    let text_yourfar := if distance > 140 then "You Are Too Far" else ""
    Except.ok (low_light_text, text_eyes_movements, text_head_analysis, text_yourfar)

/-- The four accumulation lists mutated by the frame loop of
head_and_eyes_analysis. -/
structure LoopState where
  head : List String
  eyes : List String
  errors : List String
  gestures : List ℕ
deriving DecidableEq

/-- One iteration of the frame loop: hand detection (appending the
1-based frame count to gestures), then get_eyes_data with its outputs
appended when non-empty; an IndexError from get_eyes_data is caught
and recorded as No Face Found, every other exception escapes. -/
def processFrame (st : LoopState) (cnt : ℕ) (fd : FrameData)
    (faceWidthImg : ℚ) : Except PyError LoopState :=
  let st := if fd.handPresent then { st with gestures := st.gestures ++ [cnt] } else st
  match get_eyes_data fd fd.valuePix faceWidthImg with
  | Except.error PyError.indexError =>
      Except.ok { st with errors := st.errors ++ ["No Face Found"] }
  | Except.error e => Except.error e
  | Except.ok (low_light_text, text_eyes_movements, text_head_results, your_toofar) =>
      let st := if low_light_text ≠ "" then { st with errors := st.errors ++ [low_light_text] } else st
      let st := if your_toofar ≠ "" then { st with errors := st.errors ++ [your_toofar] } else st
      let st := if text_eyes_movements ≠ "" then { st with eyes := st.eyes ++ [text_eyes_movements] } else st
      let st := if text_head_results ≠ "" then { st with head := st.head ++ [text_head_results] } else st
      Except.ok st

/-- The frame loop of head_and_eyes_analysis over the decoded frames,
threading the loop state and the 1-based frame counter. -/
def processFrames (faceWidthImg : ℚ) :
    List FrameData → ℕ → LoopState → Except PyError LoopState
  | [], _, st => Except.ok st
  | fd :: rest, cnt, st =>
      match processFrame st cnt fd faceWidthImg with
      | Except.error e => Except.error e
      | Except.ok st₂ => processFrames faceWidthImg rest (cnt + 1) st₂

/-- An element of the mixed results list of head_and_eyes_analysis:
head, eye and error entries are strings, gesture entries are the
recorded frame indices. -/
inductive ResultEntry where
  | str : String → ResultEntry
  | idx : ℕ → ResultEntry
deriving DecidableEq

/-- results = (head + eyes) + gestures + errors from
head_and_eyes_analysis. -/
def sessionResults (head eyes : List String) (gestures : List ℕ)
    (errors : List String) : List ResultEntry :=
  ((head ++ eyes).map ResultEntry.str) ++ (gestures.map ResultEntry.idx)
    ++ (errors.map ResultEntry.str)

/-- half_length = round(length / 2) from head_and_eyes_analysis. -/
def half_length (length : ℕ) : ℕ := (roundHalfEven ((length : ℚ) / 2)).toNat

/-- The final report dictionary dt of head_and_eyes_analysis. -/
structure Report where
  center : ℤ
  up : ℕ
  down : ℕ
  left : ℤ
  right : ℤ
  total_gesture : ℕ
  first_gesture : ℕ
  second_gesture : ℕ
deriving DecidableEq

/-- The aggregation phase of head_and_eyes_analysis (everything after
the frame loop): gesture split, feedback statements, abort flags and,
when no flag is set, the weighted report.  The empty dictionary of the
source is modelled as none. -/
def aggregate (head eyes : List String) (gestures : List ℕ) (errors : List String)
    (length : ℕ) (ratioX ratioY : ℚ) : Option Report × ℕ :=
  let results := sessionResults head eyes gestures errors
  let total := results.length
  let length_1 := if gestures.isEmpty then 0 else gestures.length
  let half := half_length length
  let count_1 := (gestures.filter fun i => i ≤ half).length
  let count_2 := (gestures.filter fun i => half < i ∧ i < length).length
  let _statement1 := gesture_score count_1 half
  let _statement2 := gesture_score count_2 (length - half)
  let no_facefound := results.count (ResultEntry.str "No Face Found")
  let low_lightfound := results.count (ResultEntry.str "Low Light Found")
  let your_toofar := results.count (ResultEntry.str "You Are Too Far")
  let flag : ℕ := 0
  let flag := if (low_lightfound : ℚ) > (total : ℚ) * 0.50 then 1 else flag
  let flag := if (your_toofar : ℚ) > (total : ℚ) * 0.50 then 2 else flag
  let flag := if (no_facefound : ℚ) > (total : ℚ) * 0.50 then 3 else flag
  if flag ∉ ([1, 2, 3] : List ℕ) then
    let head_center := head.count "Center"
    let head_up := head.count "Upper"
    let head_down := head.count "Down"
    let head_left := head.count "Left"
    let head_right := head.count "Right"
    let eyes_left := eyes.count "Left"
    let eyes_right := eyes.count "Right"
    let eyes_center := eyes.count "Center"
    let weighted_avgCenter :=
      pyInt (pyRound1 ((head_center : ℚ) * ratioX)) + pyInt (pyRound1 ((eyes_center : ℚ) * ratioY))
    let weighted_avgLeft :=
      pyInt (pyRound1 ((head_left : ℚ) * ratioX)) + pyInt (pyRound1 ((eyes_left : ℚ) * ratioY))
    let weighted_avgright :=
      pyInt (pyRound1 ((head_right : ℚ) * ratioX)) + pyInt (pyRound1 ((eyes_right : ℚ) * ratioY))
    let dt : Report :=
      { center := weighted_avgCenter
        up := head_up
        down := head_down
        left := weighted_avgLeft
        right := weighted_avgright
        total_gesture := length_1
        first_gesture := count_1
        second_gesture := count_2 }
    (some dt, flag)
  else (none, flag)

/-- head_and_eyes_analysis: frame loop over the decoded frames (the
video source), then aggregation; length is the best-effort reported
frame count of the capture. -/
def head_and_eyes_analysis (faceWidthImg : ℚ) (frames : List FrameData)
    (length : ℕ) (ratioX ratioY : ℚ) : Except PyError (Option Report × ℕ) :=
  match processFrames faceWidthImg frames 1 ⟨[], [], [], []⟩ with
  | Except.error e => Except.error e
  | Except.ok st => Except.ok (aggregate st.head st.eyes st.gestures st.errors length ratioX ratioY)

/-- Spec-side abort-flag evaluator: fixed priority order LowLight,
TooFar, NoFaceFound, the first count exceeding 50 percent of the
total wins, otherwise 0.  Written from the specification for
comparison with the flag computed by aggregate. -/
def priorityFlag (low_lightfound your_toofar no_facefound total : ℕ) : ℕ :=
  if (low_lightfound : ℚ) > (total : ℚ) * 0.50 then 1
  else if (your_toofar : ℚ) > (total : ℚ) * 0.50 then 2
  else if (no_facefound : ℚ) > (total : ℚ) * 0.50 then 3
  else 0

instance {ε α : Type} [DecidableEq ε] [DecidableEq α] : DecidableEq (Except ε α) := fun x y =>
  match x, y with
  | Except.ok a, Except.ok b =>
      if h : a = b then isTrue (by rw [h]) else isFalse (fun hc => h (Except.ok.inj hc))
  | Except.error e, Except.error f =>
      if h : e = f then isTrue (by rw [h]) else isFalse (fun hc => h (Except.error.inj hc))
  | Except.ok _, Except.error _ => isFalse (fun hc => Except.noConfusion hc)
  | Except.error _, Except.ok _ => isFalse (fun hc => Except.noConfusion hc)

/-- The majority test count > total * 0.50 over exact rationals is the
integer comparison total < 2 * count. -/
lemma gt_half_iff (a t : ℕ) : ((a : ℚ) > (t : ℚ) * 0.50) ↔ t < 2 * a := by
  rw [gt_iff_lt]
  constructor
  · intro h
    have h2 : (t : ℚ) < 2 * a := by linarith
    exact_mod_cast h2
  · intro h
    have h2 : (t : ℚ) < 2 * (a : ℚ) := by exact_mod_cast h
    linarith

/-- Counts of three pairwise distinct values in one list sum to at most
its length. -/
lemma count_three_le {α : Type} [DecidableEq α] (a b c : α) (hab : a ≠ b)
    (hac : a ≠ c) (hbc : b ≠ c) (l : List α) :
    l.count a + l.count b + l.count c ≤ l.length := by
  induction l with
  | nil => simp
  | cons x xs ih =>
      simp only [List.count_cons, List.length_cons, beq_iff_eq]
      by_cases h1 : x = a <;> by_cases h2 : x = b <;> by_cases h3 : x = c
      · exact absurd (h1.symm.trans h2) hab
      · exact absurd (h1.symm.trans h2) hab
      · exact absurd (h1.symm.trans h3) hac
      · rw [if_pos h1, if_neg h2, if_neg h3]; omega
      · exact absurd (h2.symm.trans h3) hbc
      · rw [if_neg h1, if_pos h2, if_neg h3]; omega
      · rw [if_neg h1, if_neg h2, if_pos h3]; omega
      · rw [if_neg h1, if_neg h2, if_neg h3]; omega

/-- Filters by two pointwise incompatible predicates have total length
at most the length of the list. -/
lemma length_filter_two_le {α : Type} (f g : α → Bool)
    (h : ∀ x, ¬(f x = true ∧ g x = true)) (l : List α) :
    (l.filter f).length + (l.filter g).length ≤ l.length := by
  induction l with
  | nil => simp
  | cons x xs ih =>
      simp only [List.filter_cons]
      by_cases hf : f x = true <;> by_cases hg : g x = true
      · exact absurd ⟨hf, hg⟩ (h x)
      · simp only [if_pos hf, if_neg hg, List.length_cons]
        omega
      · simp only [if_neg hf, if_pos hg, List.length_cons]
        omega
      · simp only [if_neg hf, if_neg hg, List.length_cons]
        omega

/-- Closed natural-number form of half_length: round-half-to-even of
length / 2 sends an odd length to the even one of the two neighbouring
integers of the half point. -/
lemma half_length_eq (L : ℕ) :
    half_length L =
      if L % 2 = 0 then L / 2
      else if (L / 2) % 2 = 0 then L / 2 else L / 2 + 1 := by
  unfold half_length roundHalfEven
  by_cases hp : L % 2 = 0
  · obtain ⟨k, hk⟩ : ∃ k, L = 2 * k := ⟨L / 2, by omega⟩
    subst hk
    have h2 : ((2 * k : ℕ) : ℚ) / 2 = (k : ℚ) := by
      push_cast
      ring
    rw [h2, Int.floor_natCast]
    have h3 : (k : ℚ) - ((k : ℤ) : ℚ) = 0 := by
      push_cast
      ring
    rw [h3]
    rw [if_pos (by norm_num : (0 : ℚ) < 1/2)]
    rw [if_pos (by omega : (2 * k) % 2 = 0)]
    omega
  · obtain ⟨k, hk⟩ : ∃ k, L = 2 * k + 1 := ⟨L / 2, by omega⟩
    subst hk
    have h2 : ((2 * k + 1 : ℕ) : ℚ) / 2 = (k : ℚ) + 1/2 := by
      push_cast
      ring
    rw [h2]
    have hfl : ⌊(k : ℚ) + 1/2⌋ = (k : ℤ) := by
      rw [Int.floor_eq_iff]
      constructor
      · push_cast
        linarith
      · push_cast
        linarith
    rw [hfl]
    have h3 : (k : ℚ) + 1/2 - ((k : ℤ) : ℚ) = 1/2 := by
      push_cast
      ring
    rw [h3]
    rw [if_neg (by norm_num : ¬((1 : ℚ)/2 < 1/2)), if_neg (by norm_num : ¬((1 : ℚ)/2 < 1/2))]
    rw [if_neg (by omega : ¬((2 * k + 1) % 2 = 0))]
    by_cases hk2 : k % 2 = 0
    · rw [if_pos (by omega : (k : ℤ) % 2 = 0), if_pos (by omega : ((2 * k + 1) / 2) % 2 = 0)]
      omega
    · rw [if_neg (by omega : ¬((k : ℤ) % 2 = 0)), if_neg (by omega : ¬(((2 * k + 1) / 2) % 2 = 0))]
      omega

/-- The rounded half point is strictly below the frame count for any
session with at least one frame. -/
lemma half_length_lt (L : ℕ) (hL : 1 ≤ L) : half_length L < L := by
  rw [half_length_eq]
  split_ifs <;> omega

lemma pyInt_pyRound1_zero : pyInt (pyRound1 0) = 0 := by
  norm_num [pyInt, pyRound1, roundHalfEven]

/-- Aggregation of a session whose only recorded results are gesture
frames: no abort flag fires and the report carries the gesture split. -/
lemma aggregate_only_gestures (gestures : List ℕ) (L : ℕ) (rX rY : ℚ) :
    aggregate [] [] gestures [] L rX rY =
      (some { center := 0, up := 0, down := 0, left := 0, right := 0,
              total_gesture := gestures.length,
              first_gesture := (gestures.filter fun i => i ≤ half_length L).length,
              second_gesture := (gestures.filter fun i => half_length L < i ∧ i < L).length },
       0) := by
  have hcount : ∀ s : String,
      (sessionResults [] [] gestures []).count (ResultEntry.str s) = 0 := by
    intro s
    rw [List.count_eq_zero]
    simp [sessionResults]
  have hlen : (if gestures.isEmpty then 0 else gestures.length) = gestures.length := by
    cases gestures <;> simp
  unfold aggregate
  simp only [hcount, hlen, gt_half_iff]
  norm_num [pyInt_pyRound1_zero]

lemma isEmpty_length {α : Type} (l : List α) :
    (if l.isEmpty then 0 else l.length) = l.length := by
  cases l <;> simp

lemma ite_nil_length {α : Type} [DecidableEq α] (l : List α) :
    (if l = [] then 0 else l.length) = l.length := by
  cases l <;> simp

lemma half_scale_not_neg (t : ℕ) : ¬((t : ℚ) * 0.50 < 0) :=
  not_lt.mpr (mul_nonneg (Nat.cast_nonneg t) (by norm_num))

lemma count_str_clean (head eyes : List String) (gestures : List ℕ) (s : String)
    (hh : s ∉ head) (he : s ∉ eyes) :
    (sessionResults head eyes gestures []).count (ResultEntry.str s) = 0 := by
  rw [List.count_eq_zero]
  simp [sessionResults, hh, he]

/-- Aggregation of a session whose head and eye lists avoid the three
error strings and which recorded no errors: no abort flag fires and the
report carries the weighted composites and the gesture split. -/
lemma aggregate_of_clean (head eyes : List String) (gestures : List ℕ) (L : ℕ) (rX rY : ℚ)
    (h1 : "Low Light Found" ∉ head) (h2 : "Low Light Found" ∉ eyes)
    (h3 : "You Are Too Far" ∉ head) (h4 : "You Are Too Far" ∉ eyes)
    (h5 : "No Face Found" ∉ head) (h6 : "No Face Found" ∉ eyes) :
    aggregate head eyes gestures [] L rX rY =
      (some { center := pyInt (pyRound1 ((head.count "Center" : ℚ) * rX))
                 + pyInt (pyRound1 ((eyes.count "Center" : ℚ) * rY)),
              up := head.count "Upper",
              down := head.count "Down",
              left := pyInt (pyRound1 ((head.count "Left" : ℚ) * rX))
                 + pyInt (pyRound1 ((eyes.count "Left" : ℚ) * rY)),
              right := pyInt (pyRound1 ((head.count "Right" : ℚ) * rX))
                 + pyInt (pyRound1 ((eyes.count "Right" : ℚ) * rY)),
              total_gesture := gestures.length,
              first_gesture := (gestures.filter fun i => i ≤ half_length L).length,
              second_gesture := (gestures.filter fun i => half_length L < i ∧ i < L).length },
       0) := by
  simp only [aggregate]
  rw [count_str_clean head eyes gestures _ h1 h2,
      count_str_clean head eyes gestures _ h3 h4,
      count_str_clean head eyes gestures _ h5 h6]
  simp [half_scale_not_neg, isEmpty_length, ite_nil_length]

/-- C1: the abort flag returned by the session aggregation is exactly the
one picked by the fixed priority order LowLight, TooFar, NoFaceFound over
the majority tests against 50 percent of all recorded results; the first
(and, the three counts being disjoint within the same results list,
necessarily the only) flag whose count exceeds the threshold wins, so at
most one abort flag is ever set and a session in which both the LowLight
and the TooFar majorities held would get flag 1. -/
theorem abort_flag_priority_order (head eyes : List String) (gestures : List ℕ)
    (errors : List String) (L : ℕ) (rX rY : ℚ) :
    (aggregate head eyes gestures errors L rX rY).2 =
      priorityFlag
        ((sessionResults head eyes gestures errors).count (ResultEntry.str "Low Light Found"))
        ((sessionResults head eyes gestures errors).count (ResultEntry.str "You Are Too Far"))
        ((sessionResults head eyes gestures errors).count (ResultEntry.str "No Face Found"))
        (sessionResults head eyes gestures errors).length := by
  have key := count_three_le (ResultEntry.str "Low Light Found")
    (ResultEntry.str "You Are Too Far") (ResultEntry.str "No Face Found")
    (by decide) (by decide) (by decide) (sessionResults head eyes gestures errors)
  unfold aggregate priorityFlag
  set R := sessionResults head eyes gestures errors with hR
  set ll := R.count (ResultEntry.str "Low Light Found") with hll
  set tf := R.count (ResultEntry.str "You Are Too Far") with htf
  set nf := R.count (ResultEntry.str "No Face Found") with hnf
  set t := R.length with ht
  simp only [gt_half_iff]
  by_cases c1 : t < 2 * ll <;> by_cases c2 : t < 2 * tf <;> by_cases c3 : t < 2 * nf <;>
    simp [c1, c2, c3] <;> omega

/-- C2: the report dictionary returned by the session aggregation is
empty exactly when a non-zero abort flag is returned, and the flag is one
of 0, 1, 2, 3: quality gating and statistical aggregation are mutually
exclusive outcomes. -/
theorem abort_report_empty_iff_flag (head eyes : List String) (gestures : List ℕ)
    (errors : List String) (L : ℕ) (rX rY : ℚ) :
    ((aggregate head eyes gestures errors L rX rY).1 = none
        ↔ (aggregate head eyes gestures errors L rX rY).2 ≠ 0) ∧
      (aggregate head eyes gestures errors L rX rY).2 ≤ 3 := by
  unfold aggregate
  set R := sessionResults head eyes gestures errors with hR
  set ll := R.count (ResultEntry.str "Low Light Found") with hll
  set tf := R.count (ResultEntry.str "You Are Too Far") with htf
  set nf := R.count (ResultEntry.str "No Face Found") with hnf
  set t := R.length with ht
  simp only [gt_half_iff]
  by_cases c1 : t < 2 * ll <;> by_cases c2 : t < 2 * tf <;> by_cases c3 : t < 2 * nf <;>
    simp [c1, c2, c3]

/-- The report record built by aggregate on the non-abort path,
abbreviated for reuse in proofs. -/
def reportOf (head eyes : List String) (gestures : List ℕ) (L : ℕ) (rX rY : ℚ) : Report :=
  { center := pyInt (pyRound1 ((head.count "Center" : ℚ) * rX))
       + pyInt (pyRound1 ((eyes.count "Center" : ℚ) * rY)),
    up := head.count "Upper",
    down := head.count "Down",
    left := pyInt (pyRound1 ((head.count "Left" : ℚ) * rX))
       + pyInt (pyRound1 ((eyes.count "Left" : ℚ) * rY)),
    right := pyInt (pyRound1 ((head.count "Right" : ℚ) * rX))
       + pyInt (pyRound1 ((eyes.count "Right" : ℚ) * rY)),
    total_gesture := gestures.length,
    first_gesture := (gestures.filter fun i => i ≤ half_length L).length,
    second_gesture := (gestures.filter fun i => half_length L < i ∧ i < L).length }

/-- The first component of aggregate is either the empty report or the
record of weighted composites and gesture counts. -/
lemma aggregate_fst_cases (head eyes : List String) (gestures : List ℕ)
    (errors : List String) (L : ℕ) (rX rY : ℚ) :
    (aggregate head eyes gestures errors L rX rY).1 = none ∨
      (aggregate head eyes gestures errors L rX rY).1
        = some (reportOf head eyes gestures L rX rY) := by
  simp only [aggregate, isEmpty_length]
  split_ifs <;>
    first
      | exact Or.inl rfl
      | (refine Or.inr ?_; simp [reportOf])

/-- C3: the head-orientation classifier is a total function of the two
gaze ratios whose value is Center, Upper, Down, Left, Right exactly on
the regions given by the spec table, with all four boundary values
0.71, 1.45, 1.33, 2.10 inclusive in the Center row. -/
theorem head_movements_classification (v h : ℚ) :
    (head_movements v h = "Center" ↔ (0.71 ≤ h ∧ h ≤ 1.45) ∧ (1.33 ≤ v ∧ v ≤ 2.10)) ∧
    (head_movements v h = "Upper" ↔ (0.71 ≤ h ∧ h ≤ 1.45) ∧ v < 1.33) ∧
    (head_movements v h = "Down" ↔ (0.71 ≤ h ∧ h ≤ 1.45) ∧ 2.10 < v) ∧
    (head_movements v h = "Left" ↔ h < 0.71) ∧
    (head_movements v h = "Right" ↔ 1.45 < h) := by
  unfold head_movements
  split_ifs with h1 h2 h3 h4 h5 h6 <;>
    refine ⟨?_, ?_, ?_, ?_, ?_⟩ <;>
    constructor <;>
    intro hx <;>
    simp_all <;>
    linarith

/-- C4 counterexample: at head_center = 10, eyes_center = 4 with the
default weights the aggregation reports the Center composite 9, while
the round-then-add formula of the claim gives 10. -/
theorem weighted_center_not_round :
    ((aggregate (List.replicate 10 "Center") (List.replicate 4 "Center") [] [] 0 0.95 0.05).1.map
        Report.center) = some 9 ∧
      roundHalfEven ((10 : ℚ) * 0.95) + roundHalfEven ((4 : ℚ) * 0.05) = 10 := by
  constructor
  · rw [aggregate_of_clean _ _ _ _ _ _ (by decide) (by decide) (by decide) (by decide)
      (by decide) (by decide)]
    simp only [Option.map_some]
    have hc : (List.replicate 10 "Center").count "Center" = 10 := by decide
    have he : (List.replicate 4 "Center").count "Center" = 4 := by decide
    rw [hc, he]
    norm_num [pyInt, pyRound1, roundHalfEven]
  · norm_num [roundHalfEven]

/-- C4 amended: on the non-abort path each of the Center, Left and Right
composites is int(round(head_count * ratioX, 1)) +
int(round(eye_count * ratioY, 1)) - Python rounds the two products to
one decimal digit (ties to even) and then truncates toward zero before
adding, it does not round them to the nearest integer. -/
theorem weighted_composites_int_round (head eyes : List String) (gestures : List ℕ)
    (errors : List String) (L : ℕ) (rX rY : ℚ) :
    ((aggregate head eyes gestures errors L rX rY).1.map fun r => (r.center, r.left, r.right))
      = ((aggregate head eyes gestures errors L rX rY).1.map fun _ =>
          (pyInt (pyRound1 ((head.count "Center" : ℚ) * rX))
             + pyInt (pyRound1 ((eyes.count "Center" : ℚ) * rY)),
           pyInt (pyRound1 ((head.count "Left" : ℚ) * rX))
             + pyInt (pyRound1 ((eyes.count "Left" : ℚ) * rY)),
           pyInt (pyRound1 ((head.count "Right" : ℚ) * rX))
             + pyInt (pyRound1 ((eyes.count "Right" : ℚ) * rY)))) := by
  simp only [aggregate]
  split_ifs with hc <;> simp

/-- C5 counterexample: on a zero-frame video the entry point does not
return the empty report with flag 0 - the report it returns is present
(all-zero), not empty. -/
theorem empty_video_not_empty_dict :
    head_and_eyes_analysis 330 [] 0 0.95 0.05 ≠ Except.ok (none, 0) := by
  have h := aggregate_only_gestures [] 0 (0.95 : ℚ) (0.05 : ℚ)
  simp [head_and_eyes_analysis, processFrames, h]

/-- C5 amended: on a zero-frame video the entry point raises nothing,
takes the weighted-score path with all-zero counts (the majority tests
fail on an empty results list) and returns the all-zero report together
with flag 0. -/
theorem empty_video_zero_report (faceWidthImg rX rY : ℚ) :
    head_and_eyes_analysis faceWidthImg [] 0 rX rY =
      Except.ok (some { center := 0, up := 0, down := 0, left := 0, right := 0,
                        total_gesture := 0, first_gesture := 0, second_gesture := 0 }, 0) := by
  simp only [head_and_eyes_analysis, processFrames]
  rw [aggregate_only_gestures]
  rfl

/-- C6: when the face tracker reports face width 0 on a frame, the code
reads the local variable distance in the final too-far test without it
ever having been assigned: get_eyes_data raises UnboundLocalError, and
since the frame loop catches only IndexError the exception escapes
head_and_eyes_analysis instead of degrading to a face-not-found record
as the specification requires. -/
theorem face_width_zero_unbound (hand : Bool) (fvals vpix sv sh fv fh vp2 fwImg : ℚ)
    (b₁ b₂ b₃ b₄ b₅ b₆ : Bool) (L : ℕ) (rX rY : ℚ) :
    get_eyes_data ⟨hand, false, 0, fvals, vpix, sv, sh, fv, fh, b₁, b₂, b₃, b₄, b₅, b₆⟩ vp2 fwImg
        = Except.error (PyError.unboundLocal "distance") ∧
      head_and_eyes_analysis fwImg
          [⟨hand, false, 0, fvals, vpix, sv, sh, fv, fh, b₁, b₂, b₃, b₄, b₅, b₆⟩] L rX rY
        = Except.error (PyError.unboundLocal "distance") := by
  have h1 : get_eyes_data ⟨hand, false, 0, fvals, vpix, sv, sh, fv, fh, b₁, b₂, b₃, b₄, b₅, b₆⟩
      vp2 fwImg = Except.error (PyError.unboundLocal "distance") := by
    simp [get_eyes_data]
  have h2 : get_eyes_data ⟨hand, false, 0, fvals, vpix, sv, sh, fv, fh, b₁, b₂, b₃, b₄, b₅, b₆⟩
      vpix fwImg = Except.error (PyError.unboundLocal "distance") := by
    simp [get_eyes_data]
  refine ⟨h1, ?_⟩
  simp [head_and_eyes_analysis, processFrames, processFrame, h2]

/-- C7: gesture_score classifies its count against the sample-size
dependent buckets 100, 200, 300 (fewer than 750 samples), 200, 400, 600
(750 to 1250 samples) and 400, 800, 1600 (more), returning the
no-gestures statement exactly for count 0, good effort for 1..b1,
awesome for b1+1..b2, too much for b2+1..b3 and a lot above b3. -/
theorem gesture_score_bucket_classification (c n : ℕ) :
    (gesture_score c n =
        "We didn’t see any gestures. Is this a missed opportunity? Consider using gestures to help you emphasize your key messages."
      ↔ c = 0) ∧
    (gesture_score c n = "Good effort! You had some gestures, try using a few more."
      ↔ 1 ≤ c ∧ c ≤ (if n < 750 then 100 else if 750 ≤ n ∧ n ≤ 1250 then 200 else 400)) ∧
    (gesture_score c n = "Awesome, that was magnificent! You are using your gestures to add interest."
      ↔ (if n < 750 then 100 else if 750 ≤ n ∧ n ≤ 1250 then 200 else 400) + 1 ≤ c
          ∧ c ≤ (if n < 750 then 200 else if 750 ≤ n ∧ n ≤ 1250 then 400 else 800)) ∧
    (gesture_score c n = "Phew! We can see you are using your hands. Maybe a little too much."
      ↔ (if n < 750 then 200 else if 750 ≤ n ∧ n ≤ 1250 then 400 else 800) + 1 ≤ c
          ∧ c ≤ (if n < 750 then 300 else if 750 ≤ n ∧ n ≤ 1250 then 600 else 1600)) ∧
    (gesture_score c n = "Ouch! There were a lot of gestures."
      ↔ (if n < 750 then 300 else if 750 ≤ n ∧ n ≤ 1250 then 600 else 1600) < c) := by
  simp only [gesture_score]
  split_ifs <;>
    refine ⟨?_, ?_, ?_, ?_, ?_⟩ <;>
    constructor <;>
    intro hx <;>
    simp_all <;>
    omega

/-- C8 counterexample: for count 150 with 500 samples gesture_score does
not return the good-effort statement. -/
theorem gesture_score_150_500_not_good :
    gesture_score 150 500 ≠ "Good effort! You had some gestures, try using a few more." := by
  decide

/-- C8 amended: for count 150 with 500 samples the bucket list is
0, 100, 200, 300 and 150 lies in 101..200, so gesture_score returns the
awesome statement, not the good-effort one. -/
theorem gesture_score_150_500_awesome :
    gesture_score 150 500 =
      "Awesome, that was magnificent! You are using your gestures to add interest." := by
  decide

/-- C9: the gesture split uses half = round(length / 2) with Python
Python round-half-to-even, counts a gesture frame index in the first half
exactly when it is at most half and in the second half exactly when it
is strictly between half and the reported length; a gesture whose frame
index equals the reported length lands in neither half. -/
theorem gesture_half_split (head eyes : List String) (gestures : List ℕ)
    (errors : List String) (L : ℕ) (rX rY : ℚ) (hL : 1 ≤ L) :
    half_length L = (roundHalfEven ((L : ℚ) / 2)).toNat ∧
    ((aggregate head eyes gestures errors L rX rY).1.map fun r =>
        (r.first_gesture, r.second_gesture))
      = ((aggregate head eyes gestures errors L rX rY).1.map fun _ =>
          ((gestures.filter fun i => i ≤ half_length L).length,
           (gestures.filter fun i => half_length L < i ∧ i < L).length)) ∧
    ((aggregate [] [] [L] [] L rX rY).1.map fun r => (r.first_gesture, r.second_gesture))
      = some (0, 0) := by
  refine ⟨rfl, ?_, ?_⟩
  · rcases aggregate_fst_cases head eyes gestures errors L rX rY with hcase | hcase <;>
      rw [hcase] <;>
      simp [reportOf]
  · rw [aggregate_only_gestures]
    have h1 : ¬(L ≤ half_length L) := by
      have := half_length_lt L hL
      omega
    simp [List.filter, h1]

/-- C9 witness at length 5 with gestures at frames 2 and 5. -/
theorem gesture_half_split_witness :
    1 ≤ 5 ∧
      (half_length 5 = (roundHalfEven ((5 : ℚ) / 2)).toNat ∧
        ((aggregate [] [] [2, 5] [] 5 0.95 0.05).1.map fun r => (r.first_gesture, r.second_gesture))
          = ((aggregate [] [] [2, 5] [] 5 0.95 0.05).1.map fun _ =>
              (([2, 5].filter fun i => i ≤ half_length 5).length,
               ([2, 5].filter fun i => half_length 5 < i ∧ i < 5).length)) ∧
        ((aggregate [] [] [5] [] 5 0.95 0.05).1.map fun r => (r.first_gesture, r.second_gesture))
          = some (0, 0)) :=
  ⟨by decide, gesture_half_split [] [] [2, 5] [] 5 0.95 0.05 (by decide)⟩

/-- C10: in every report the two half counts sum to at most the total
gesture count, and the inequality can be strict: with reported length 3
and a single gesture at decoded frame 5 the total is 1 while both half
counts are 0. -/
theorem gesture_halves_le_total (head eyes : List String) (gestures : List ℕ)
    (errors : List String) (L : ℕ) (rX rY : ℚ) (r : Report)
    (h : (aggregate head eyes gestures errors L rX rY).1 = some r) :
    r.first_gesture + r.second_gesture ≤ r.total_gesture ∧
      ((aggregate [] [] [5] [] 3 rX rY).1.map fun t =>
          (t.total_gesture, t.first_gesture, t.second_gesture)) = some (1, 0, 0) := by
  constructor
  · have hd : ∀ i : ℕ,
        ¬((decide (i ≤ half_length L)) = true ∧ (decide (half_length L < i ∧ i < L)) = true) := by
      intro i
      simp only [decide_eq_true_eq]
      omega
    rcases aggregate_fst_cases head eyes gestures errors L rX rY with hcase | hcase
    · rw [h] at hcase
      exact absurd hcase (by simp)
    · rw [h] at hcase
      obtain rfl : r = reportOf head eyes gestures L rX rY := by
        injection hcase
      simp only [reportOf]
      exact length_filter_two_le _ _ hd gestures
  · rw [aggregate_only_gestures]
    have h5 : half_length 3 = 2 := by
      rw [half_length_eq]
      decide
    simp [List.filter, h5]

/-- C10 witness at the strict instance. -/
theorem gesture_halves_le_total_witness :
    ((⟨0, 0, 0, 0, 0, 1, 0, 0⟩ : Report).first_gesture
        + (⟨0, 0, 0, 0, 0, 1, 0, 0⟩ : Report).second_gesture
      ≤ (⟨0, 0, 0, 0, 0, 1, 0, 0⟩ : Report).total_gesture) ∧
      ((aggregate [] [] [5] [] 3 (0.95 : ℚ) (0.05 : ℚ)).1.map fun t =>
          (t.total_gesture, t.first_gesture, t.second_gesture)) = some (1, 0, 0) :=
  gesture_halves_le_total [] [] [5] [] 3 0.95 0.05 ⟨0, 0, 0, 0, 0, 1, 0, 0⟩
    (by simp [aggregate_only_gestures, half_length_eq, List.filter])

end MovementAnalysis
